import Mathlib

/-!
Verification of the AsanaToGithub migration tool against its design
specification.

The development shallowly embeds the repository's Python sources:

  * `taskcache.py`   — the `TaskCache` class (Record Store);
  * `_asana_to_github.py` — the orchestrator `migrate_asana_to_github`,
    the per-task copy operation `copy_task_to_github` and its helpers
    (`get_label`, `apply_tag_at_asana`, `add_story_to_assana`,
    `copy_stories_to_github`, `ask_user_permission`).

Remote services (Asana, GitHub) are modelled by an explicit environment
`Env` that fixes, for every remote call, whether the call raises and what
it returns.  Executing a piece of code yields a `Run`: the ordered trace
of remote calls it attempted, paired with the exception (if any) that
propagated out of it.  Exceptions abort the run at the failing call, so
the failing call is always the last event of the trace.

File-system state backing the cache is modelled by `FileState`
(missing / unparseable / parsed JSON object).  Python `dict` semantics
(string coercion of integer keys under `json.dump`, last-wins on
duplicate keys under `json.load`) are modelled explicitly.
-/

/-- One value of the persisted cache mapping, as written by
`TaskCache.set`: `{'name': ..., 'copied_at': ..., 'completed_state': ...}`. -/
structure CacheEntry where
  name : String
  copied_at : String
  completed_state : Bool
deriving DecidableEq

/-- A key of the in-memory Python dict held by `TaskCache.set` between
`load` and `save`.  Keys read back from the JSON file are strings; the key
inserted by `set` is the raw `task['id']` (an integer for Asana tasks).
An integer key and a string key are never equal as dict keys. -/
inductive PyKey where
  | intKey (n : Nat)
  | strKey (s : String)
deriving DecidableEq

/-- The string form a key takes when the dict is serialized by
`json.dump` (JSON object keys are strings, so integer keys are coerced). -/
def pyStr : PyKey → String
  | .intKey n => toString n
  | .strKey s => s

/-- State of the cache file on disk: absent, present but not parseable as
JSON, or a parsed JSON object (an ordered list of key/value pairs as they
appear in the file text; duplicate keys may occur in the text). -/
inductive FileState where
  | missing
  | corrupt
  | content (m : List (String × CacheEntry))
deriving DecidableEq

/-- Python dict insertion: update the value in place if the key is
present, otherwise append the new binding. -/
def strInsert (m : List (String × CacheEntry)) (k : String) (v : CacheEntry) :
    List (String × CacheEntry) :=
  if m.any (fun p => decide (p.1 = k)) then
    m.map (fun p => if p.1 = k then (k, v) else p)
  else m ++ [(k, v)]

/-- The Python dict produced by `json.load` from a JSON object text:
bindings are installed left to right, so a duplicated key keeps its first
position with the last value. -/
def pyDict (l : List (String × CacheEntry)) : List (String × CacheEntry) :=
  l.foldl (fun m p => strInsert m p.1 p.2) []

/-- Python dict insertion for the mixed-key dict held inside
`TaskCache.set`. -/
def pyInsert (m : List (PyKey × CacheEntry)) (k : PyKey) (v : CacheEntry) :
    List (PyKey × CacheEntry) :=
  if m.any (fun p => decide (p.1 = k)) then
    m.map (fun p => if p.1 = k then (k, v) else p)
  else m ++ [(k, v)]

/-- A `datetime.datetime` value; only its ISO rendering is observable
through the cache. -/
structure PyDateTime where
  iso : String
deriving DecidableEq

/-- The ISO-8601 rendering `datetime.isoformat()`. -/
def PyDateTime.isoformat (d : PyDateTime) : String := d.iso

/-- The fields of a task dict that `taskcache.py` reads: `task['id']`,
`task['name']`, `task['completed']`. -/
structure PyTask where
  id : Nat
  name : String
  completed : Bool
deriving DecidableEq

/-- `TaskCache.__init__`: `self.use_cache = use_cache;
self.cache_path = cache_path or '.asanagh.cache'`. -/
structure TaskCache where
  use_cache : Bool
  cache_path : String
deriving DecidableEq

/-- The constructor body, with Python falsiness of `None` and `''` for the
`cache_path or '.asanagh.cache'` default. -/
def TaskCache.init (use_cache : Bool) (cache_path : Option String) : TaskCache :=
  match cache_path with
  | none => ⟨use_cache, ".asanagh.cache"⟩
  | some p => if p = "" then ⟨use_cache, ".asanagh.cache"⟩ else ⟨use_cache, p⟩

/-- `TaskCache.load`: returns `{}` when the cache is disabled; otherwise
opens and JSON-parses the file, and returns `{}` on `IOError` (file
missing) or `ValueError` (unparseable content).  The embedding is a total
function: no state makes it raise. -/
def TaskCache.load (tc : TaskCache) (fs : FileState) : List (String × CacheEntry) :=
  if !tc.use_cache then []
  else
    match fs with
    | .missing => []
    | .corrupt => []
    | .content m => pyDict m

/-- `TaskCache.save`: a no-op when the cache is disabled; otherwise writes
the whole mapping with `json.dump` (integer keys coerced to strings).
The write itself can fail (permissions, disk full); `save` has no handler,
so that failure propagates — modelled by the `writeOk` flag of the
backing store. -/
def TaskCache.save (tc : TaskCache) (writeOk : Bool)
    (cache : List (PyKey × CacheEntry)) (fs : FileState) : Except Unit FileState :=
  if !tc.use_cache then .ok fs
  else if writeOk then .ok (.content (cache.map (fun p => (pyStr p.1, p.2))))
  else .error ()

/-- `TaskCache.includes`: `str(task['id']) in self.load()`. -/
def TaskCache.includes (tc : TaskCache) (fs : FileState) (task : PyTask) : Bool :=
  (tc.load fs).any (fun p => decide (p.1 = toString task.id))

/-- `TaskCache.set`: load, bind `cache[task['id']]` (the raw integer key,
not its string form) to the snapshot entry, save the whole mapping. -/
def TaskCache.set (tc : TaskCache) (fs : FileState) (writeOk : Bool)
    (task : PyTask) (now : PyDateTime) : Except Unit FileState :=
  let cache := (tc.load fs).map (fun p => (PyKey.strKey p.1, p.2))
  let cache2 := pyInsert cache (PyKey.intKey task.id)
    ⟨task.name, now.isoformat, task.completed⟩
  tc.save writeOk cache2 fs

/-- Python `str.endswith`, phrased over the character sequence (the byte
position loop of `String.endsWith` is extensionally the same but does not
evaluate by kernel reduction). -/
def pyEndsWith (s t : String) : Bool := t.data.isSuffixOf s.data

/-- A bulk-listing task summary as returned by
`asana_api_object.get_project_tasks` (`{id, name}`). -/
structure TaskSummary where
  id : Nat
  name : String
deriving DecidableEq

/-- A full task as returned by `asana_api_object.get_task`.  `projects`
holds the project names iterated by the label step;
`workspace_id` models `task['workspace']['id']`. -/
structure TaskDetail where
  id : Nat
  name : String
  completed : Bool
  notes : String
  due_on : Option String
  created_at : String
  workspace_id : Nat
  projects : List String
deriving DecidableEq

/-- One Asana story as returned by `list_stories`. -/
structure Story where
  type_ : String
  text : String
  created_by : String
  created_at : String
deriving DecidableEq

/-- The command-line flags read by the orchestrator and the copy step. -/
structure Options where
  interactive : Bool
  copy_completed : Bool
  dont_apply_tag : Bool
  dont_apply_label : Bool
  dont_apply_project_label : Bool
  dont_update_story : Bool
  dont_copy_stories : Bool
deriving DecidableEq

/-- A remote-call event.  Each constructor records one attempted call to
Asana or GitHub, in program order; `copyCall tid` additionally marks the
orchestrator invoking `copy_task_to_github` for task `tid`. -/
inductive Ev where
  | listTasks
  | getTask (tid : Nat)
  | copyCall (tid : Nat)
  | getLabel (name : String)
  | createLabel (name : String)
  | createIssue (tid : Nat)
  | listStories (tid : Nat)
  | createComment (tid : Nat)
  | getTags
  | createTag
  | addTagTask (tid : Nat)
  | addStory (tid : Nat)
deriving DecidableEq

/-- The outcome of executing a piece of the program: the trace of remote
calls attempted, and the exception (identified by its failing call) that
propagated, `none` when execution completed normally. -/
abbrev Run := List Ev × Option Ev

/-- Sequential composition: Python statements one after the other; an
exception in the first aborts before the second contributes anything. -/
def seqRun (r k : Run) : Run :=
  match r.2 with
  | some e => (r.1, some e)
  | none => (r.1 ++ k.1, k.2)

/-- The fixed outcomes of every remote call for one run: for each call,
whether it raises, and the data it returns when it does not. -/
structure Env where
  listTasksFails : Bool
  project_tasks : List TaskSummary
  getTaskFails : Nat → Bool
  get_task : Nat → TaskDetail
  userAccepts : Nat → Bool
  getLabelRaises : String → Bool
  createLabelFails : String → Bool
  createIssueFails : Bool
  listStoriesFails : Bool
  stories : Nat → List Story
  createCommentFails : Bool
  getTagsFails : Bool
  tags : Nat → List (String × Nat)
  createTagFails : Bool
  addTagTaskFails : Bool
  addStoryFails : Bool

/-- Whether the call recorded by an event succeeded in environment `env`.
`getLabel` is always "ok" from the caller's point of view: `get_label`
wraps the remote lookup in `try/except Exception` and converts any raise
into `None`, so a lookup exception never leaves the function.  `copyCall`
is a marker, not a remote call. -/
def evOk (env : Env) : Ev → Bool
  | .listTasks => !env.listTasksFails
  | .getTask tid => !env.getTaskFails tid
  | .copyCall _ => true
  | .getLabel _ => true
  | .createLabel n => !env.createLabelFails n
  | .createIssue _ => !env.createIssueFails
  | .listStories _ => !env.listStoriesFails
  | .createComment _ => !env.createCommentFails
  | .getTags => !env.getTagsFails
  | .createTag => !env.createTagFails
  | .addTagTask _ => !env.addTagTaskFails
  | .addStory _ => !env.addStoryFails

/-- `get_label`: `try: repo.get_label(name) except Exception: None`.
When the remote lookup raises (label absent, 404, or any other failure)
the result is `None`; otherwise the label handle.  The raise is swallowed
here, never propagated. -/
def get_label (env : Env) (name : String) : Option Unit :=
  if env.getLabelRaises name then none else some ()

/-- The label block of `copy_task_to_github` for one label name:
`a_label = get_label(...); if not a_label: a_label = create_label(...)`. -/
def getOrCreateLabel (env : Env) (name : String) : Run :=
  match get_label env name with
  | some _ => ([.getLabel name], none)
  | none =>
    if env.createLabelFails name then
      ([.getLabel name, .createLabel name], some (.createLabel name))
    else
      ([.getLabel name, .createLabel name], none)

/-- The `for project in task['projects']` loop of the label block. -/
def projectLabels (env : Env) : List String → Run
  | [] => ([], none)
  | p :: ps => seqRun (getOrCreateLabel env p) (projectLabels env ps)

/-- Both label blocks of `copy_task_to_github`, each behind its flag. -/
def applyLabels (env : Env) (opts : Options) (task : TaskDetail) : Run :=
  seqRun (if opts.dont_apply_label then ([], none)
          else getOrCreateLabel env "copied-from-asana")
         (if opts.dont_apply_project_label then ([], none)
          else projectLabels env task.projects)

/-- `dtparser.parse` followed by `strftime`, an opaque total
transformation of the timestamp string; no verified claim depends on the
rendered form. -/
def fmtDateTime (s : String) : String := s

/-- The comment text accumulated over stories of type `comment`. -/
def storyComments (stories : List Story) : String :=
  stories.foldl (fun acc s =>
    if s.type_ == "comment" then
      acc ++ "*" ++ fmtDateTime s.created_at ++ "*: **" ++ s.created_by ++
        "** wrote \x27" ++ (s.text.replace "\n" "") ++ "\x27\n"
    else acc) ""

/-- The attachment text accumulated over stories of type `system` whose
text starts with the fixed marker `attached `. -/
def storyAttachments (stories : List Story) : String :=
  stories.foldl (fun acc s =>
    if s.type_ == "system" && s.text.take 9 == "attached " then
      acc ++ "1. [Link to attachment](" ++ s.text.drop 9 ++ ")\n"
    else acc) ""

/-- `copy_stories_to_github`: list the stories, build the comment and
attachment sections, and create one issue comment when either is
non-empty. -/
def copy_stories_to_github (env : Env) (task_id : Nat) : Run :=
  if env.listStoriesFails then ([.listStories task_id], some (.listStories task_id))
  else if (storyComments (env.stories task_id)).length > 0
      || (storyAttachments (env.stories task_id)).length > 0 then
    if env.createCommentFails then
      ([.listStories task_id, .createComment task_id], some (.createComment task_id))
    else
      ([.listStories task_id, .createComment task_id], none)
  else ([.listStories task_id], none)

/-- First tag whose `name` equals the title, as in the
`for atag in all_tags: ... break` scan. -/
def findTagId : List (String × Nat) → String → Option Nat
  | [], _ => none
  | (n, i) :: rest, title => if n = title then some i else findTagId rest title

/-- Python falsiness of the scanned `tag_id` (`None` and `0` are falsy,
so the `if not tag_id:` guard also fires on a tag whose id is `0`). -/
def tagIdFalsy : Option Nat → Bool
  | none => true
  | some 0 => true
  | some _ => false

/-- `apply_tag_at_asana`: list the workspace tags, reuse the first tag
with the given title, otherwise create it; then add the tag to the task. -/
def apply_tag_at_asana (env : Env) (tag_title : String) (workspace_id : Nat)
    (task_id : Nat) : Run :=
  if env.getTagsFails then ([.getTags], some .getTags)
  else if tagIdFalsy (findTagId (env.tags workspace_id) tag_title) then
    if env.createTagFails then ([.getTags, .createTag], some .createTag)
    else if env.addTagTaskFails then
      ([.getTags, .createTag, .addTagTask task_id], some (.addTagTask task_id))
    else ([.getTags, .createTag, .addTagTask task_id], none)
  else
    if env.addTagTaskFails then
      ([.getTags, .addTagTask task_id], some (.addTagTask task_id))
    else ([.getTags, .addTagTask task_id], none)

/-- `add_story_to_assana`: one remote write of the cross-reference story. -/
def add_story_to_assana (env : Env) (task_id : Nat) : Run :=
  if env.addStoryFails then ([.addStory task_id], some (.addStory task_id))
  else ([.addStory task_id], none)

/-- Python truthiness of the optional `due_on` field (absent or empty
string is falsy). -/
def pyTruthy : Option String → Bool
  | none => false
  | some s => !(s == "")

/-- The `#### Meta` trailer of the issue body. -/
def issueMeta (task : TaskDetail) : String :=
  let meta := "#### Meta\n[Asana task](https://app.asana.com/0/" ++
    toString task.workspace_id ++ "/" ++ toString task.id ++
    ") was created at " ++ fmtDateTime task.created_at ++ "."
  if pyTruthy task.due_on then
    meta ++ " It is due on " ++ fmtDateTime (task.due_on.getD "") ++ "."
  else meta

/-- The body passed to `create_issue`: the task notes, a newline, and the
meta trailer. -/
def issueBody (task : TaskDetail) : String :=
  task.notes ++ "\n" ++ issueMeta task

/-- The `create_issue` call (title `task['name']`, body `issueBody`, the
accumulated labels); its raise propagates. -/
def createIssueStep (env : Env) (task_id : Nat) : Run :=
  if env.createIssueFails then ([.createIssue task_id], some (.createIssue task_id))
  else ([.createIssue task_id], none)

/-- `copy_task_to_github`: labels, issue creation, optional story copy to
the issue, then the two Asana write-backs (tag, story), each behind its
flag, in source order. -/
def copy_task_to_github (env : Env) (task : TaskDetail) (task_id : Nat)
    (opts : Options) : Run :=
  seqRun (applyLabels env opts task)
    (seqRun (createIssueStep env task_id)
      (seqRun (if opts.dont_copy_stories then ([], none)
               else copy_stories_to_github env task_id)
        (seqRun (if opts.dont_apply_tag then ([], none)
                 else apply_tag_at_asana env "copied to github" task.workspace_id task_id)
          (if opts.dont_update_story then ([], none)
           else add_story_to_assana env task_id))))

/-- `ask_user_permission`: prints the task, then loops on `getch` until a
`y`/`n` keypress; the eventual decision for each task is fixed by the
environment. -/
def ask_user_permission (env : Env) (task_id : Nat) : Bool :=
  env.userAccepts task_id

/-- The `should_copy` assignment of the loop body: ask the user in
interactive mode, otherwise `True`. -/
def should_copy_decision (env : Env) (opts : Options) (tid : Nat) : Bool :=
  if opts.interactive then ask_user_permission env tid else true

/-- The body of the orchestrator loop after `task = get_task(...)`:
`if not task['name'].endswith(':') and (options.copy_completed or not
task['completed'])`, then the interactive gate, then the copy.  Note that
the name filter reads the fetched detail, and that nothing here touches
the task cache. -/
def processFetched (env : Env) (opts : Options) (tid : Nat) (task : TaskDetail) : Run :=
  if (!(pyEndsWith task.name ":")) && (opts.copy_completed || !task.completed) then
    if should_copy_decision env opts tid then
      seqRun ([.copyCall tid], none) (copy_task_to_github env task tid opts)
    else ([], none)
  else ([], none)

/-- One iteration of the orchestrator loop: fetch the full task (this
remote call happens for every summary, before any filtering), then decide
and copy. -/
def processTask (env : Env) (opts : Options) (s : TaskSummary) : Run :=
  if env.getTaskFails s.id then ([.getTask s.id], some (.getTask s.id))
  else seqRun ([.getTask s.id], none) (processFetched env opts s.id (env.get_task s.id))

/-- The `for a_task in all_tasks` loop; an exception in one iteration
propagates and ends the run. -/
def migrateLoop (env : Env) (opts : Options) : List TaskSummary → Run
  | [] => ([], none)
  | s :: rest => seqRun (processTask env opts s) (migrateLoop env opts rest)

/-- `migrate_asana_to_github`: list the project tasks, return early on an
empty project, else run the loop.  The cache file state `fs` is threaded
unchanged: the function contains no reference to `TaskCache`, so the
Record Store is neither read nor written by a run. -/
def migrate_asana_to_github (env : Env) (opts : Options) (fs : FileState) :
    Run × FileState :=
  if env.listTasksFails then (([.listTasks], some .listTasks), fs)
  else if env.project_tasks.isEmpty then (([.listTasks], none), fs)
  else (seqRun ([.listTasks], none) (migrateLoop env opts env.project_tasks), fs)

/-- Modelled from the spec: the eligibility predicate `could_copy`
(spec section 4.2) is not present anywhere under the repository sources —
the orchestrator in `_asana_to_github.py` never consults the cache and
filters on the fetched detail.  Following the spec text: false when the
summary name ends in the literal `:`, otherwise the negation of the
Record Store membership test, which is the source-embedded
`TaskCache.includes`. -/
def could_copy (s : TaskSummary) (tc : TaskCache) (fs : FileState) : Bool :=
  if pyEndsWith s.name ":" then false
  else !(tc.includes fs ⟨s.id, s.name, false⟩)

/-- Events that mutate the source tracker (Asana): tag creation, tag
application, story append. -/
def isSourceMut : Ev → Bool
  | .createTag => true
  | .addTagTask _ => true
  | .addStory _ => true
  | _ => false

/-- Trace check: no source-tracker mutation occurs before the first
`createIssue tid` event (events after it are unconstrained). -/
def mutsAfterIssue (tid : Nat) : List Ev → Bool
  | [] => true
  | e :: rest =>
    if isSourceMut e then false
    else if e = Ev.createIssue tid then true
    else mutsAfterIssue tid rest

/-- Whether an event is an orchestrator copy invocation marker. -/
def isCopyCall : Ev → Bool
  | .copyCall _ => true
  | _ => false

/-- A trace containing no source-tracker mutation. -/
def noMut (tr : List Ev) : Bool := tr.all (fun e => !isSourceMut e)

/-- A trace containing no copy invocation marker. -/
def noCopyCall (tr : List Ev) : Bool := tr.all (fun e => !isCopyCall e)

/-- Well-behaved run: on normal completion every attempted call succeeded
(save the always-swallowed label lookup), and an abnormal completion ends
the trace exactly at the failing call, whose environment outcome is a
raise. -/
def RunOk (env : Env) (r : Run) : Prop :=
  (r.2 = none → r.1.all (evOk env) = true) ∧
  (∀ e, r.2 = some e → (∃ pre, r.1 = pre ++ [e]) ∧ evOk env e = false)

/-! ### Concrete fixtures for the closed evaluation theorems -/

/-- An ordinary eligible task. -/
def task1 : TaskDetail := ⟨1, "Fix bug", false, "", none, "", 0, []⟩

/-- A section-header task: its name ends in the literal `:`. -/
def task2 : TaskDetail := ⟨2, "Section:", false, "", none, "", 0, []⟩

/-- A completed task. -/
def taskDone : TaskDetail := ⟨3, "Done item", true, "", none, "", 0, []⟩

/-- All seven flags off: non-interactive, completed tasks not copied,
every side effect enabled. -/
def opts0 : Options := ⟨false, false, false, false, false, false, false⟩

/-- A project with the single task `task1`; every remote call succeeds,
the `copied-from-asana` label and the `copied to github` tag already
exist remotely, the task has no stories. -/
def envOk : Env :=
  ⟨false, [⟨1, "Fix bug"⟩], fun _ => false, fun _ => task1, fun _ => true,
   fun _ => false, fun _ => false, false, false, fun _ => [], false, false,
   fun _ => [("copied to github", 5)], false, false, false⟩

/-- Like `envOk` but the listed task is the section header `task2`. -/
def envHeader : Env :=
  ⟨false, [⟨2, "Section:"⟩], fun _ => false, fun _ => task2, fun _ => true,
   fun _ => false, fun _ => false, false, false, fun _ => [], false, false,
   fun _ => [("copied to github", 5)], false, false, false⟩

/-- Like `envOk` but every remote label lookup raises (network failure or
absent label — `get_label` cannot tell them apart). -/
def envLookupRaises : Env :=
  ⟨false, [⟨1, "Fix bug"⟩], fun _ => false, fun _ => task1, fun _ => true,
   fun _ => true, fun _ => false, false, false, fun _ => [], false, false,
   fun _ => [("copied to github", 5)], false, false, false⟩

/-- Like `envOk` but the remote issue creation raises. -/
def envIssueFails : Env :=
  ⟨false, [⟨1, "Fix bug"⟩], fun _ => false, fun _ => task1, fun _ => true,
   fun _ => false, fun _ => false, true, false, fun _ => [], false, false,
   fun _ => [("copied to github", 5)], false, false, false⟩

/-- Like `envOk` but the Asana story write-back raises. -/
def envStoryFails : Env :=
  ⟨false, [⟨1, "Fix bug"⟩], fun _ => false, fun _ => task1, fun _ => true,
   fun _ => false, fun _ => false, false, false, fun _ => [], false, false,
   fun _ => [("copied to github", 5)], false, false, true⟩

/-- Like `envOk` but the listed task is the completed `taskDone`. -/
def envDone : Env :=
  ⟨false, [⟨3, "Done item"⟩], fun _ => false, fun _ => taskDone, fun _ => true,
   fun _ => false, fun _ => false, false, false, fun _ => [], false, false,
   fun _ => [("copied to github", 5)], false, false, false⟩

/-! ### Generic lemmas about runs -/

theorem seqRun_err {r : Run} (k : Run) {e : Ev} (h : r.2 = some e) :
    seqRun r k = (r.1, some e) := by
  unfold seqRun
  rw [h]

theorem seqRun_ok {r : Run} (k : Run) (h : r.2 = none) :
    seqRun r k = (r.1 ++ k.1, k.2) := by
  unfold seqRun
  rw [h]

theorem runOk_of_all {env : Env} {tr : List Ev} (h : tr.all (evOk env) = true) :
    RunOk env (tr, none) := by
  constructor
  · intro _
    exact h
  · intro e he
    exact absurd he (by simp)

theorem runOk_err {env : Env} {tr : List Ev} {e : Ev} (h : evOk env e = false) :
    RunOk env (tr ++ [e], some e) := by
  constructor
  · intro hc
    exact absurd hc (by simp)
  · intro e2 he
    have h2 : e = e2 := by simpa using he
    subst h2
    exact ⟨⟨tr, rfl⟩, h⟩

theorem runOk_seq {env : Env} {r k : Run} (hr : RunOk env r) (hk : RunOk env k) :
    RunOk env (seqRun r k) := by
  cases he : r.2 with
  | some e =>
    rw [seqRun_err k he]
    constructor
    · intro hc
      exact absurd hc (by simp)
    · intro e2 he2
      have h2 : e = e2 := by simpa using he2
      subst h2
      exact hr.2 e he
  | none =>
    rw [seqRun_ok k he]
    constructor
    · intro hc
      have h1 := hr.1 he
      have h2 := hk.1 hc
      simp only [List.all_append]
      simp [h1, h2]
    · intro e2 he2
      obtain ⟨⟨pre, hpre⟩, hev⟩ := hk.2 e2 he2
      refine ⟨⟨r.1 ++ pre, ?_⟩, hev⟩
      simp [hpre]

/-! ### Well-behavedness of every embedded operation -/

theorem runOk_getOrCreateLabel (env : Env) (name : String) :
    RunOk env (getOrCreateLabel env name) := by
  unfold getOrCreateLabel get_label
  split
  next h1 =>
    apply runOk_of_all
    simp [evOk]
  next h1 =>
    split
    next h2 =>
      exact @runOk_err env [Ev.getLabel name] (Ev.createLabel name) (by simp [evOk, h2])
    next h2 =>
      apply runOk_of_all
      simp [evOk, h2]

theorem runOk_projectLabels (env : Env) (ps : List String) :
    RunOk env (projectLabels env ps) := by
  induction ps with
  | nil =>
    apply runOk_of_all
    rfl
  | cons p rest ih =>
    unfold projectLabels
    exact runOk_seq (runOk_getOrCreateLabel env p) ih

theorem runOk_applyLabels (env : Env) (opts : Options) (task : TaskDetail) :
    RunOk env (applyLabels env opts task) := by
  unfold applyLabels
  apply runOk_seq
  · split
    · apply runOk_of_all
      rfl
    · exact runOk_getOrCreateLabel env "copied-from-asana"
  · split
    · apply runOk_of_all
      rfl
    · exact runOk_projectLabels env task.projects

theorem runOk_copy_stories (env : Env) (tid : Nat) :
    RunOk env (copy_stories_to_github env tid) := by
  unfold copy_stories_to_github
  split
  next h1 =>
    exact @runOk_err env [] (Ev.listStories tid) (by simp [evOk, h1])
  next h1 =>
    split
    · split
      next h2 =>
        exact @runOk_err env [Ev.listStories tid] (Ev.createComment tid)
          (by simp [evOk, h2])
      next h2 =>
        apply runOk_of_all
        simp [evOk, h1, h2]
    · apply runOk_of_all
      simp [evOk, h1]

theorem runOk_apply_tag (env : Env) (title : String) (wid : Nat) (tid : Nat) :
    RunOk env (apply_tag_at_asana env title wid tid) := by
  unfold apply_tag_at_asana
  split
  next h1 =>
    exact @runOk_err env [] Ev.getTags (by simp [evOk, h1])
  next h1 =>
    split
    · split
      next h2 =>
        exact @runOk_err env [Ev.getTags] Ev.createTag (by simp [evOk, h2])
      next h2 =>
        split
        next h3 =>
          exact @runOk_err env [Ev.getTags, Ev.createTag] (Ev.addTagTask tid)
            (by simp [evOk, h3])
        next h3 =>
          apply runOk_of_all
          simp [evOk, h1, h2, h3]
    · split
      next h3 =>
        exact @runOk_err env [Ev.getTags] (Ev.addTagTask tid) (by simp [evOk, h3])
      next h3 =>
        apply runOk_of_all
        simp [evOk, h1, h3]

theorem runOk_add_story (env : Env) (tid : Nat) :
    RunOk env (add_story_to_assana env tid) := by
  unfold add_story_to_assana
  split
  next h1 =>
    exact @runOk_err env [] (Ev.addStory tid) (by simp [evOk, h1])
  next h1 =>
    apply runOk_of_all
    simp [evOk, h1]

theorem runOk_createIssueStep (env : Env) (tid : Nat) :
    RunOk env (createIssueStep env tid) := by
  unfold createIssueStep
  split
  next h1 =>
    exact @runOk_err env [] (Ev.createIssue tid) (by simp [evOk, h1])
  next h1 =>
    apply runOk_of_all
    simp [evOk, h1]

theorem runOk_copy_task (env : Env) (task : TaskDetail) (tid : Nat) (opts : Options) :
    RunOk env (copy_task_to_github env task tid opts) := by
  unfold copy_task_to_github
  apply runOk_seq (runOk_applyLabels env opts task)
  apply runOk_seq (runOk_createIssueStep env tid)
  apply runOk_seq
  · split
    · apply runOk_of_all
      rfl
    · exact runOk_copy_stories env tid
  apply runOk_seq
  · split
    · apply runOk_of_all
      rfl
    · exact runOk_apply_tag env "copied to github" task.workspace_id tid
  · split
    · apply runOk_of_all
      rfl
    · exact runOk_add_story env tid

theorem runOk_processFetched (env : Env) (opts : Options) (tid : Nat) (task : TaskDetail) :
    RunOk env (processFetched env opts tid task) := by
  unfold processFetched
  split
  · split
    · apply runOk_seq
      · apply runOk_of_all
        rfl
      · exact runOk_copy_task env task tid opts
    · apply runOk_of_all
      rfl
  · apply runOk_of_all
    rfl

theorem runOk_processTask (env : Env) (opts : Options) (s : TaskSummary) :
    RunOk env (processTask env opts s) := by
  unfold processTask
  split
  next h1 =>
    exact @runOk_err env [] (Ev.getTask s.id) (by simp [evOk, h1])
  next h1 =>
    apply runOk_seq
    · apply runOk_of_all
      simp [evOk, h1]
    · exact runOk_processFetched env opts s.id (env.get_task s.id)

theorem runOk_migrateLoop (env : Env) (opts : Options) (l : List TaskSummary) :
    RunOk env (migrateLoop env opts l) := by
  induction l with
  | nil =>
    apply runOk_of_all
    rfl
  | cons s rest ih =>
    unfold migrateLoop
    exact runOk_seq (runOk_processTask env opts s) ih

theorem runOk_migrate (env : Env) (opts : Options) (fs : FileState) :
    RunOk env (migrate_asana_to_github env opts fs).1 := by
  unfold migrate_asana_to_github
  split
  next h1 =>
    exact @runOk_err env [] Ev.listTasks (by simp [evOk, h1])
  next h1 =>
    split
    · apply runOk_of_all
      simp [evOk, h1]
    · apply runOk_seq
      · apply runOk_of_all
        simp [evOk, h1]
      · exact runOk_migrateLoop env opts env.project_tasks

theorem migrate_fs_unchanged (env : Env) (opts : Options) (fs : FileState) :
    (migrate_asana_to_github env opts fs).2 = fs := by
  unfold migrate_asana_to_github
  split
  · rfl
  · split
    · rfl
    · rfl

/-! ### Trace shape lemmas -/

theorem all_seqRun {P : Ev → Bool} {r k : Run} (hr : r.1.all P = true)
    (hk : k.1.all P = true) : (seqRun r k).1.all P = true := by
  unfold seqRun
  cases he : r.2
  · simp only [List.all_append]
    simp [hr, hk]
  · simpa using hr

theorem seqRun_err_cases {r k : Run} {e : Ev} (h : (seqRun r k).2 = some e) :
    r.2 = some e ∨ k.2 = some e := by
  unfold seqRun at h
  cases he : r.2 with
  | none =>
    rw [he] at h
    exact Or.inr h
  | some e2 =>
    rw [he] at h
    simp at h
    subst h
    exact Or.inl rfl

theorem mem_seqRun {x : Ev} {r k : Run} (h : x ∈ (seqRun r k).1) :
    x ∈ r.1 ∨ x ∈ k.1 := by
  unfold seqRun at h
  cases he : r.2 with
  | none =>
    rw [he] at h
    simpa using h
  | some e2 =>
    rw [he] at h
    exact Or.inl h

theorem noMut_getOrCreateLabel (env : Env) (name : String) :
    noMut (getOrCreateLabel env name).1 = true := by
  unfold getOrCreateLabel get_label
  split
  · rfl
  · split
    · rfl
    · rfl

theorem noMut_projectLabels (env : Env) (ps : List String) :
    noMut (projectLabels env ps).1 = true := by
  induction ps with
  | nil => rfl
  | cons p rest ih =>
    unfold projectLabels noMut
    exact all_seqRun (noMut_getOrCreateLabel env p) ih

theorem noMut_applyLabels (env : Env) (opts : Options) (task : TaskDetail) :
    noMut (applyLabels env opts task).1 = true := by
  unfold applyLabels noMut
  apply all_seqRun
  · split
    · rfl
    · exact noMut_getOrCreateLabel env "copied-from-asana"
  · split
    · rfl
    · exact noMut_projectLabels env task.projects

theorem noMut_copy_stories (env : Env) (tid : Nat) :
    noMut (copy_stories_to_github env tid).1 = true := by
  unfold copy_stories_to_github
  split
  · rfl
  · split
    · split
      · rfl
      · rfl
    · rfl

theorem createIssueStep_trace (env : Env) (tid : Nat) :
    (createIssueStep env tid).1 = [Ev.createIssue tid] := by
  unfold createIssueStep
  split
  · rfl
  · rfl

theorem createIssueStep_err (env : Env) (tid : Nat) {e : Ev}
    (h : (createIssueStep env tid).2 = some e) : e = Ev.createIssue tid := by
  unfold createIssueStep at h
  split at h
  · simpa using h.symm
  · simp at h

theorem applyLabels_err (env : Env) (opts : Options) (task : TaskDetail) {e : Ev}
    (h : (applyLabels env opts task).2 = some e) : ∃ n, e = Ev.createLabel n := by
  have hgl : ∀ name e2, (getOrCreateLabel env name).2 = some e2 →
      ∃ n, e2 = Ev.createLabel n := by
    intro name e2 h2
    unfold getOrCreateLabel get_label at h2
    split at h2
    · simp at h2
    · split at h2
      · exact ⟨name, by simpa using h2.symm⟩
      · simp at h2
  have hpl : ∀ ps e2, (projectLabels env ps).2 = some e2 →
      ∃ n, e2 = Ev.createLabel n := by
    intro ps
    induction ps with
    | nil =>
      intro e2 h2
      simp [projectLabels] at h2
    | cons p rest ih =>
      intro e2 h2
      unfold projectLabels at h2
      rcases seqRun_err_cases h2 with hc | hc
      · exact hgl p e2 hc
      · exact ih e2 hc
  unfold applyLabels at h
  rcases seqRun_err_cases h with hc | hc
  · split at hc
    · simp at hc
    · exact hgl _ e hc
  · split at hc
    · simp at hc
    · exact hpl _ e hc

/-- Events that can name the propagated exception of the post-issue part
of `copy_task_to_github` (story copy, tag write-back, story write-back). -/
def isPostIssueEv : Ev → Bool
  | .listStories _ => true
  | .createComment _ => true
  | .getTags => true
  | .createTag => true
  | .addTagTask _ => true
  | .addStory _ => true
  | _ => false

theorem copy_stories_err (env : Env) (tid : Nat) {e : Ev}
    (h : (copy_stories_to_github env tid).2 = some e) : isPostIssueEv e = true := by
  unfold copy_stories_to_github at h
  split at h
  · simp at h
    subst h
    rfl
  · split at h
    · split at h
      · simp at h
        subst h
        rfl
      · simp at h
    · simp at h

theorem apply_tag_err (env : Env) (title : String) (wid : Nat) (tid : Nat) {e : Ev}
    (h : (apply_tag_at_asana env title wid tid).2 = some e) : isPostIssueEv e = true := by
  unfold apply_tag_at_asana at h
  split at h
  · simp at h
    subst h
    rfl
  · split at h
    · split at h
      · simp at h
        subst h
        rfl
      · split at h
        · simp at h
          subst h
          rfl
        · simp at h
    · split at h
      · simp at h
        subst h
        rfl
      · simp at h

theorem add_story_err (env : Env) (tid : Nat) {e : Ev}
    (h : (add_story_to_assana env tid).2 = some e) : isPostIssueEv e = true := by
  unfold add_story_to_assana at h
  split at h
  · simp at h
    subst h
    rfl
  · simp at h

theorem postIssue_chain_err (env : Env) (tid : Nat) (opts : Options)
    (task : TaskDetail) {e : Ev}
    (h : (seqRun (if opts.dont_copy_stories then (([], none) : Run)
               else copy_stories_to_github env tid)
        (seqRun (if opts.dont_apply_tag then (([], none) : Run)
                 else apply_tag_at_asana env "copied to github" task.workspace_id tid)
          (if opts.dont_update_story then (([], none) : Run)
           else add_story_to_assana env tid))).2 = some e) :
    isPostIssueEv e = true := by
  rcases seqRun_err_cases h with hc | hc
  · split at hc
    · simp at hc
    · exact copy_stories_err env tid hc
  · rcases seqRun_err_cases hc with hc2 | hc2
    · split at hc2
      · simp at hc2
      · exact apply_tag_err env "copied to github" task.workspace_id tid hc2
    · split at hc2
      · simp at hc2
      · exact add_story_err env tid hc2

theorem mutsAfterIssue_append_noMut (tid : Nat) {tr1 rest : List Ev}
    (h : noMut tr1 = true) (h2 : mutsAfterIssue tid rest = true) :
    mutsAfterIssue tid (tr1 ++ rest) = true := by
  induction tr1 with
  | nil => simpa using h2
  | cons e t ih =>
    have he : isSourceMut e = false := by
      have := List.all_eq_true.mp h e (by simp)
      simpa using this
    have ht : noMut t = true := by
      apply List.all_eq_true.mpr
      intro x hx
      exact List.all_eq_true.mp h x (by simp [hx])
    rw [List.cons_append]
    simp only [mutsAfterIssue]
    rw [he]
    simp only [Bool.false_eq_true, if_false]
    split
    · rfl
    · exact ih ht

theorem mutsAfterIssue_of_noMut (tid : Nat) {tr : List Ev} (h : noMut tr = true) :
    mutsAfterIssue tid tr = true := by
  have h2 := mutsAfterIssue_append_noMut tid h (show mutsAfterIssue tid [] = true from rfl)
  simpa using h2

theorem mutsAfterIssue_issueHead (tid : Nat) (rest : List Ev) :
    mutsAfterIssue tid (Ev.createIssue tid :: rest) = true := by
  unfold mutsAfterIssue
  simp [isSourceMut]

theorem copy_task_mutsAfterIssue (env : Env) (task : TaskDetail) (tid : Nat)
    (opts : Options) :
    mutsAfterIssue tid (copy_task_to_github env task tid opts).1 = true := by
  unfold copy_task_to_github
  cases hA : (applyLabels env opts task).2 with
  | some e =>
    rw [seqRun_err _ hA]
    exact mutsAfterIssue_of_noMut tid (noMut_applyLabels env opts task)
  | none =>
    rw [seqRun_ok _ hA]
    apply mutsAfterIssue_append_noMut tid (noMut_applyLabels env opts task)
    cases hB : (createIssueStep env tid).2 with
    | some e =>
      rw [seqRun_err _ hB, createIssueStep_trace]
      exact mutsAfterIssue_issueHead tid []
    | none =>
      rw [seqRun_ok _ hB, createIssueStep_trace]
      exact mutsAfterIssue_issueHead tid _

theorem copy_task_preIssue_err_noMut (env : Env) (task : TaskDetail) (tid : Nat)
    (opts : Options) {e : Ev}
    (herr : (copy_task_to_github env task tid opts).2 = some e)
    (hshape : isPostIssueEv e = false) :
    noMut (copy_task_to_github env task tid opts).1 = true := by
  unfold copy_task_to_github at herr ⊢
  cases hA : (applyLabels env opts task).2 with
  | some e2 =>
    rw [seqRun_err _ hA]
    exact noMut_applyLabels env opts task
  | none =>
    rw [seqRun_ok _ hA]
    rw [seqRun_ok _ hA] at herr
    cases hB : (createIssueStep env tid).2 with
    | some e2 =>
      rw [seqRun_err _ hB, createIssueStep_trace]
      rw [noMut, List.all_append]
      simp only [Bool.and_eq_true]
      exact ⟨noMut_applyLabels env opts task, by rfl⟩
    | none =>
      rw [seqRun_ok _ hB] at herr
      exact absurd (postIssue_chain_err env tid opts task herr) (by simp [hshape])

theorem noCopyCall_getOrCreateLabel (env : Env) (name : String) :
    noCopyCall (getOrCreateLabel env name).1 = true := by
  unfold getOrCreateLabel get_label
  split
  · rfl
  · split
    · rfl
    · rfl

theorem noCopyCall_projectLabels (env : Env) (ps : List String) :
    noCopyCall (projectLabels env ps).1 = true := by
  induction ps with
  | nil => rfl
  | cons p rest ih =>
    unfold projectLabels noCopyCall
    exact all_seqRun (noCopyCall_getOrCreateLabel env p) ih

theorem noCopyCall_copy_task (env : Env) (task : TaskDetail) (tid : Nat)
    (opts : Options) :
    noCopyCall (copy_task_to_github env task tid opts).1 = true := by
  unfold copy_task_to_github noCopyCall
  apply all_seqRun
  · unfold applyLabels
    apply all_seqRun
    · split
      · rfl
      · exact noCopyCall_getOrCreateLabel env "copied-from-asana"
    · split
      · rfl
      · exact noCopyCall_projectLabels env task.projects
  apply all_seqRun
  · rw [createIssueStep_trace]
    rfl
  apply all_seqRun
  · split
    · rfl
    · unfold copy_stories_to_github
      split
      · rfl
      · split
        · split
          · rfl
          · rfl
        · rfl
  apply all_seqRun
  · split
    · rfl
    · unfold apply_tag_at_asana
      split
      · rfl
      · split
        · split
          · rfl
          · split
            · rfl
            · rfl
        · split
          · rfl
          · rfl
  · split
    · rfl
    · unfold add_story_to_assana
      split
      · rfl
      · rfl

theorem not_mem_of_noCopyCall {tr : List Ev} (h : noCopyCall tr = true) (t : Nat) :
    Ev.copyCall t ∉ tr := by
  intro hm
  have h2 := List.all_eq_true.mp h _ hm
  simp [isCopyCall] at h2

/-! ### Orchestrator-level trace lemmas -/

theorem processTask_getTask_mem (env : Env) (opts : Options) (s : TaskSummary) :
    Ev.getTask s.id ∈ (processTask env opts s).1 := by
  unfold processTask
  split
  · simp
  · rw [seqRun_ok _ rfl]
    simp

theorem processFetched_skip (env : Env) (opts : Options) (tid : Nat) (task : TaskDetail)
    (h : ((!pyEndsWith task.name ":") && (opts.copy_completed || !task.completed)) = false) :
    processFetched env opts tid task = ([], none) := by
  unfold processFetched
  rw [h]
  simp

theorem processFetched_copyCall (env : Env) (opts : Options) (tid : Nat)
    (task : TaskDetail) (t : Nat) (hne : t ≠ tid) :
    Ev.copyCall t ∉ (processFetched env opts tid task).1 := by
  unfold processFetched
  split
  · split
    · intro hm
      rcases mem_seqRun hm with hc | hc
      · simp at hc
        exact hne hc
      · exact not_mem_of_noCopyCall (noCopyCall_copy_task env task tid opts) t hc
    · simp
  · simp

theorem migrateLoop_no_copyCall (env : Env) (opts : Options) (tid : Nat)
    (hcond : ((!pyEndsWith (env.get_task tid).name ":") &&
      (opts.copy_completed || !(env.get_task tid).completed)) = false) :
    ∀ l : List TaskSummary, Ev.copyCall tid ∉ (migrateLoop env opts l).1 := by
  intro l
  induction l with
  | nil => simp [migrateLoop]
  | cons s rest ih =>
    unfold migrateLoop
    intro hm
    rcases mem_seqRun hm with hc | hc
    · unfold processTask at hc
      split at hc
      · simp at hc
      · rcases mem_seqRun hc with hc2 | hc2
        · simp at hc2
        · by_cases hid : s.id = tid
          · rw [hid] at hc2
            rw [processFetched_skip env opts tid (env.get_task tid) hcond] at hc2
            simp at hc2
          · exact processFetched_copyCall env opts s.id (env.get_task s.id) tid
              (fun hh => hid hh.symm) hc2
    · exact ih hc

theorem migrate_no_copyCall (env : Env) (opts : Options) (fs : FileState) (tid : Nat)
    (hcond : ((!pyEndsWith (env.get_task tid).name ":") &&
      (opts.copy_completed || !(env.get_task tid).completed)) = false) :
    Ev.copyCall tid ∉ (migrate_asana_to_github env opts fs).1.1 := by
  unfold migrate_asana_to_github
  split
  · simp
  · split
    · simp
    · intro hm
      rcases mem_seqRun hm with hc | hc
      · simp at hc
      · exact migrateLoop_no_copyCall env opts tid hcond _ hc

theorem migrateLoop_getTask_mem (env : Env) (opts : Options) :
    ∀ l : List TaskSummary, (migrateLoop env opts l).2 = none →
      ∀ s ∈ l, Ev.getTask s.id ∈ (migrateLoop env opts l).1 := by
  intro l
  induction l with
  | nil =>
    intro _ s hs
    simp at hs
  | cons s0 rest ih =>
    intro hnone s hs
    unfold migrateLoop at hnone ⊢
    cases hpt : (processTask env opts s0).2 with
    | some e =>
      rw [seqRun_err _ hpt] at hnone
      simp at hnone
    | none =>
      rw [seqRun_ok _ hpt] at hnone ⊢
      simp only at hnone
      rcases List.mem_cons.mp hs with heq | hs2
      · subst heq
        exact List.mem_append.mpr (Or.inl (processTask_getTask_mem env opts s))
      · exact List.mem_append.mpr (Or.inr (ih hnone s hs2))

theorem seqRun_nil_ok (tr : List Ev) (k : Run) : seqRun (tr, none) k = (tr ++ k.1, k.2) := rfl

theorem migrate_getTask_mem (env : Env) (opts : Options) (fs : FileState)
    (hnone : (migrate_asana_to_github env opts fs).1.2 = none) :
    ∀ s ∈ env.project_tasks,
      Ev.getTask s.id ∈ (migrate_asana_to_github env opts fs).1.1 := by
  intro s hs
  unfold migrate_asana_to_github at hnone ⊢
  split at hnone
  next h1 => simp at hnone
  next h1 =>
    rw [if_neg h1]
    split at hnone
    next h2 =>
      rw [List.isEmpty_iff] at h2
      rw [h2] at hs
      simp at hs
    next h2 =>
      rw [if_neg h2]
      rw [seqRun_nil_ok] at hnone ⊢
      exact List.mem_append.mpr (Or.inr (migrateLoop_getTask_mem env opts _ hnone s hs))

theorem processFetched_completed_irrelevant (env : Env) (opts : Options) (tid : Nat)
    (task : TaskDetail) (h : opts.copy_completed = true) :
    processFetched env opts tid task =
      processFetched env opts tid
        ⟨task.id, task.name, false, task.notes, task.due_on, task.created_at,
         task.workspace_id, task.projects⟩ := by
  unfold processFetched
  rw [h]
  rfl

/-! ### Claim theorems -/

/-- C6: Record Store `load` never raises — it is a total function that
returns the empty mapping whenever the cache is disabled, the file is
missing, or its content fails to parse — while a failing write is not
swallowed: with the cache enabled, `save` and `set` propagate the write
failure to their caller (and `save` with the cache disabled cannot fail
because it performs no write). -/
theorem claim_C6_load_never_raises_write_propagates (path : String) (fs : FileState)
    (m : List (PyKey × CacheEntry)) (task : PyTask) (now : PyDateTime) :
    TaskCache.load ⟨false, path⟩ fs = [] ∧
    TaskCache.load ⟨true, path⟩ .missing = [] ∧
    TaskCache.load ⟨true, path⟩ .corrupt = [] ∧
    TaskCache.save ⟨true, path⟩ false m fs = .error () ∧
    TaskCache.set ⟨true, path⟩ fs false task now = .error () ∧
    TaskCache.save ⟨false, path⟩ false m fs = .ok fs := by
  exact ⟨rfl, rfl, rfl, rfl, rfl, rfl⟩

/-- C9: with caching disabled, `includes` answers false for every task and
every backing-store state, `set` returns the store unchanged (no durable
write), and any store a disabled `set` produces loads — under a
re-enabled cache — exactly as the original store does. -/
theorem claim_C9_disabled_cache (path : String) (fs : FileState) (task : PyTask)
    (now : PyDateTime) (writeOk : Bool) :
    TaskCache.includes ⟨false, path⟩ fs task = false ∧
    TaskCache.set ⟨false, path⟩ fs writeOk task now = .ok fs ∧
    (∀ fs2, TaskCache.set ⟨false, path⟩ fs writeOk task now = .ok fs2 →
      TaskCache.load ⟨true, path⟩ fs2 = TaskCache.load ⟨true, path⟩ fs) := by
  refine ⟨rfl, rfl, ?_⟩
  intro fs2 h
  rw [show TaskCache.set ⟨false, path⟩ fs writeOk task now = Except.ok fs from rfl] at h
  injection h with h2
  rw [h2]

/-- C9 witness: the theorem applied at a concrete disabled cache over a
populated store. -/
theorem claim_C9_disabled_cache_witness :
    TaskCache.includes ⟨false, "p"⟩ (.content [("9", ⟨"x", "t", true⟩)])
      ⟨9, "x", true⟩ = false ∧
    TaskCache.load ⟨true, "p"⟩ (.content [("9", ⟨"x", "t", true⟩)]) =
      TaskCache.load ⟨true, "p"⟩ (.content [("9", ⟨"x", "t", true⟩)]) := by
  refine ⟨(claim_C9_disabled_cache "p" (.content [("9", ⟨"x", "t", true⟩)])
    ⟨9, "x", true⟩ ⟨"t"⟩ true).1, ?_⟩
  exact (claim_C9_disabled_cache "p" (.content [("9", ⟨"x", "t", true⟩)])
    ⟨9, "x", true⟩ ⟨"t"⟩ true).2.2 (.content [("9", ⟨"x", "t", true⟩)]) rfl

/-- C5: `set` over an enabled cache and an absent store persists exactly
the binding `str(task id) ↦ {name, copied_at = now.isoformat(),
completed_state}` (the integer key is string-coerced by the JSON dump),
after which `includes` answers true and a reload yields exactly that
mapping. -/
theorem claim_C5_cache_roundtrip (path : String) (task : PyTask) (now : PyDateTime) :
    TaskCache.set ⟨true, path⟩ .missing true task now =
      .ok (.content [(toString task.id, ⟨task.name, now.isoformat, task.completed⟩)]) ∧
    (∀ fs2, TaskCache.set ⟨true, path⟩ .missing true task now = .ok fs2 →
      TaskCache.includes ⟨true, path⟩ fs2 task = true ∧
      TaskCache.load ⟨true, path⟩ fs2 =
        [(toString task.id, ⟨task.name, now.isoformat, task.completed⟩)]) := by
  refine ⟨rfl, ?_⟩
  intro fs2 h
  rw [show TaskCache.set ⟨true, path⟩ .missing true task now =
    Except.ok (FileState.content [(toString task.id,
      ⟨task.name, now.isoformat, task.completed⟩)]) from rfl] at h
  injection h with h2
  subst h2
  constructor
  · simp [TaskCache.includes, TaskCache.load, pyDict, strInsert]
  · simp [TaskCache.load, pyDict, strInsert]

/-- C5 witness: the round trip evaluated at a concrete task and time. -/
theorem claim_C5_cache_roundtrip_witness :
    TaskCache.set ⟨true, "p"⟩ .missing true ⟨7, "n", true⟩ ⟨"t"⟩ =
      .ok (.content [("7", ⟨"n", "t", true⟩)]) ∧
    TaskCache.includes ⟨true, "p"⟩ (.content [("7", ⟨"n", "t", true⟩)])
      ⟨7, "n", true⟩ = true ∧
    TaskCache.load ⟨true, "p"⟩ (.content [("7", ⟨"n", "t", true⟩)]) =
      [("7", ⟨"n", "t", true⟩)] := by
  refine ⟨(claim_C5_cache_roundtrip "p" ⟨7, "n", true⟩ ⟨"t"⟩).1, ?_, ?_⟩
  · exact ((claim_C5_cache_roundtrip "p" ⟨7, "n", true⟩ ⟨"t"⟩).2
      (.content [("7", ⟨"n", "t", true⟩)]) rfl).1
  · exact ((claim_C5_cache_roundtrip "p" ⟨7, "n", true⟩ ⟨"t"⟩).2
      (.content [("7", ⟨"n", "t", true⟩)]) rfl).2

/-- C3: the eligibility predicate (modelled from the spec, see
`could_copy`) answers false for every summary whose name ends in `:`,
whatever the Record Store holds, and otherwise answers exactly the
negation of the store membership test `TaskCache.includes`. -/
theorem claim_C3_could_copy (s : TaskSummary) (tc : TaskCache) (fs : FileState) :
    (pyEndsWith s.name ":" = true → could_copy s tc fs = false) ∧
    (pyEndsWith s.name ":" = false →
      could_copy s tc fs = !(tc.includes fs ⟨s.id, s.name, false⟩)) := by
  constructor
  · intro h
    unfold could_copy
    rw [h]
    simp
  · intro h
    unfold could_copy
    rw [h]
    simp

/-- C3 witness: both branches evaluated at concrete summaries over a
concrete cached store. -/
theorem claim_C3_could_copy_witness :
    could_copy ⟨2, "Section:"⟩ ⟨true, "p"⟩ (.content []) = false ∧
    could_copy ⟨1, "Fix bug"⟩ ⟨true, "p"⟩ (.content [("1", ⟨"Fix bug", "t", false⟩)]) =
      !(TaskCache.includes ⟨true, "p"⟩ (.content [("1", ⟨"Fix bug", "t", false⟩)])
        ⟨1, "Fix bug", false⟩) := by
  constructor
  · exact (claim_C3_could_copy ⟨2, "Section:"⟩ ⟨true, "p"⟩ (.content [])).1 (by decide)
  · exact (claim_C3_could_copy ⟨1, "Fix bug"⟩ ⟨true, "p"⟩
      (.content [("1", ⟨"Fix bug", "t", false⟩)])).2 (by decide)

/-- C1: evaluation of the commit rule at a concrete run.  Over a project
with the single eligible task `1`, an enabled empty cache, and every
remote call succeeding, the run completes, creates the issue for task `1`
— and still leaves the Record Store untouched: the orchestrator
`migrate_asana_to_github` contains no call to `TaskCache.set`, so a
successfully copied task leaves no Cache Record, contradicting the
claimed commit rule. -/
theorem claim_C1_no_record_after_copy :
    (migrate_asana_to_github envOk opts0 (.content [])).1.2 = none ∧
    Ev.createIssue 1 ∈ (migrate_asana_to_github envOk opts0 (.content [])).1.1 ∧
    (migrate_asana_to_github envOk opts0 (.content [])).2 = .content [] ∧
    TaskCache.includes ⟨true, ".asanagh.cache"⟩
      (migrate_asana_to_github envOk opts0 (.content [])).2 ⟨1, "Fix bug", false⟩ = false := by
  decide

/-- C2: evaluation of the idempotence claim at a concrete pair of runs.
The first run over task `1` copies it but commits nothing to the Record
Store; the second run, against the very store the first run persisted,
invokes the copy operation for task `1` again — the cache never
suppresses anything because nothing is ever committed to it. -/
theorem claim_C2_second_run_recopies :
    Ev.copyCall 1 ∈ (migrate_asana_to_github envOk opts0 (.content [])).1.1 ∧
    (migrate_asana_to_github envOk opts0 (.content [])).2 = .content [] ∧
    Ev.copyCall 1 ∈ (migrate_asana_to_github envOk opts0
      ((migrate_asana_to_github envOk opts0 (.content [])).2)).1.1 := by
  decide

/-- C4 counterexample: a task whose name ends in `:` is excluded by the
filter, yet its full detail IS fetched — the orchestrator calls
`get_task` on every listed summary before evaluating any filter, so
"never performs the detail fetch" fails at this input. -/
theorem claim_C4_counterexample :
    pyEndsWith (envHeader.get_task 2).name ":" = true ∧
    Ev.getTask 2 ∈ (migrate_asana_to_github envHeader opts0 (.content [])).1.1 := by
  decide

/-- C4 amended: the orchestrator fetches the detail of every listed task
(on a run that completes, every summary has its `get_task` call in the
trace), and the `:`-name exclusion is applied to the fetched detail — an
excluded task is fetched but never copied.  No cache-based exclusion
exists. -/
theorem claim_C4_fetch_before_filter (env : Env) (opts : Options) (fs : FileState) :
    ((migrate_asana_to_github env opts fs).1.2 = none →
      ∀ s ∈ env.project_tasks,
        Ev.getTask s.id ∈ (migrate_asana_to_github env opts fs).1.1) ∧
    (∀ tid, pyEndsWith (env.get_task tid).name ":" = true →
      Ev.copyCall tid ∉ (migrate_asana_to_github env opts fs).1.1) := by
  constructor
  · exact migrate_getTask_mem env opts fs
  · intro tid h
    apply migrate_no_copyCall
    rw [h]
    simp

/-- C4 witness: the amended statement applied at the concrete runs. -/
theorem claim_C4_fetch_before_filter_witness :
    Ev.getTask 1 ∈ (migrate_asana_to_github envOk opts0 (.content [])).1.1 ∧
    Ev.copyCall 2 ∉ (migrate_asana_to_github envHeader opts0 (.content [])).1.1 := by
  constructor
  · exact (claim_C4_fetch_before_filter envOk opts0 (.content [])).1 (by decide)
      ⟨1, "Fix bug"⟩ (by decide)
  · exact (claim_C4_fetch_before_filter envHeader opts0 (.content [])).2 2 (by decide)

/-- C7 counterexample: the remote label lookup raises (`get_label`
swallows every exception), yet the run completes without any propagated
error and proceeds to create the issue — so a remote API error raised
during a task's processing was masked, contradicting "no step masks a
remote failure". -/
theorem claim_C7_counterexample :
    envLookupRaises.getLabelRaises "copied-from-asana" = true ∧
    (migrate_asana_to_github envLookupRaises opts0 (.content [])).1.2 = none ∧
    Ev.createIssue 1 ∈ (migrate_asana_to_github envLookupRaises opts0 (.content [])).1.1 := by
  decide

/-- C7 amended: every remote error of the enumerated operations (listing,
detail fetch, label/issue/comment/tag creation, story write-back)
propagates and aborts the run at the failing call — a run that completes
normally had every attempted call succeed, with the sole exception of the
label lookup, whose raises `get_label` converts to `None` (`evOk` holds
label lookups vacuously ok); and no Cache Record is committed for a
failed task (the store is returned unchanged by every run). -/
theorem claim_C7_error_propagation (env : Env) (opts : Options) (fs : FileState) :
    ((migrate_asana_to_github env opts fs).1.2 = none →
      (migrate_asana_to_github env opts fs).1.1.all (evOk env) = true) ∧
    (∀ e, (migrate_asana_to_github env opts fs).1.2 = some e →
      (∃ pre, (migrate_asana_to_github env opts fs).1.1 = pre ++ [e]) ∧
      evOk env e = false) ∧
    (migrate_asana_to_github env opts fs).2 = fs := by
  exact ⟨(runOk_migrate env opts fs).1, (runOk_migrate env opts fs).2,
    migrate_fs_unchanged env opts fs⟩

/-- C7 witness: the amended statement applied at a run whose story
write-back raises. -/
theorem claim_C7_error_propagation_witness :
    (migrate_asana_to_github envStoryFails opts0 (.content [])).1.2 =
      some (Ev.addStory 1) ∧
    (∃ pre, (migrate_asana_to_github envStoryFails opts0 (.content [])).1.1 =
      pre ++ [Ev.addStory 1]) ∧
    evOk envStoryFails (Ev.addStory 1) = false := by
  refine ⟨by decide, ?_⟩
  exact (claim_C7_error_propagation envStoryFails opts0 (.content [])).2.1
    (Ev.addStory 1) (by decide)

/-- C8: a fetched task that is completed while the copy-completed flag is
off is skipped terminally — the orchestrator never invokes the copy
operation for it and the Record Store comes back unchanged; with the flag
on, the loop body treats a completed task exactly as it treats the same
task marked incomplete. -/
theorem claim_C8_completion_check (env : Env) (opts : Options) (fs : FileState) (tid : Nat) :
    ((env.get_task tid).completed = true → opts.copy_completed = false →
      Ev.copyCall tid ∉ (migrate_asana_to_github env opts fs).1.1 ∧
      (migrate_asana_to_github env opts fs).2 = fs) ∧
    (opts.copy_completed = true → ∀ task : TaskDetail,
      processFetched env opts tid task =
        processFetched env opts tid
          ⟨task.id, task.name, false, task.notes, task.due_on, task.created_at,
           task.workspace_id, task.projects⟩) := by
  constructor
  · intro h1 h2
    refine ⟨?_, migrate_fs_unchanged env opts fs⟩
    apply migrate_no_copyCall
    rw [h1, h2]
    simp
  · intro h task
    exact processFetched_completed_irrelevant env opts tid task h

/-- C8 witness: the completed task `3` under an off flag is never copied
and the store is unchanged. -/
theorem claim_C8_completion_check_witness :
    Ev.copyCall 3 ∉ (migrate_asana_to_github envDone opts0 (.content [])).1.1 ∧
    (migrate_asana_to_github envDone opts0 (.content [])).2 = .content [] := by
  exact (claim_C8_completion_check envDone opts0 (.content []) 3).1 (by decide) (by decide)

/-- C10: in every trace of the per-task copy operation, every
source-tracker mutation (tag creation, tag application, story append)
occurs strictly after the issue-creation call, and a failure raised from
the label-creation or issue-creation step leaves a trace containing no
source-tracker mutation at all. -/
theorem claim_C10_writeback_order (env : Env) (task : TaskDetail) (tid : Nat)
    (opts : Options) :
    mutsAfterIssue tid (copy_task_to_github env task tid opts).1 = true ∧
    (∀ n, (copy_task_to_github env task tid opts).2 = some (Ev.createLabel n) →
      noMut (copy_task_to_github env task tid opts).1 = true) ∧
    ((copy_task_to_github env task tid opts).2 = some (Ev.createIssue tid) →
      noMut (copy_task_to_github env task tid opts).1 = true) := by
  refine ⟨copy_task_mutsAfterIssue env task tid opts, ?_, ?_⟩
  · intro n h
    exact copy_task_preIssue_err_noMut env task tid opts h rfl
  · intro h
    exact copy_task_preIssue_err_noMut env task tid opts h rfl

/-- C10 witness: when issue creation raises at a concrete input, the
trace indeed carries no source-tracker mutation. -/
theorem claim_C10_writeback_order_witness :
    (copy_task_to_github envIssueFails task1 1 opts0).2 = some (Ev.createIssue 1) ∧
    noMut (copy_task_to_github envIssueFails task1 1 opts0).1 = true := by
  refine ⟨by decide, ?_⟩
  exact (claim_C10_writeback_order envIssueFails task1 1 opts0).2.2 (by decide)
